import Mathlib

/-!
Shallow embedding of the payments-uz-sdk TypeScript sources (Click and Payme
payment providers) together with proofs about the embedded operations.

Network transport is modelled by passing provider responses as explicit
values; external library primitives (MD5 from node:crypto, Base64 decoding
from node:buffer) are passed as abstract function parameters.  JavaScript
truthiness on optional strings (`undefined` and `""` are falsy) is modelled
explicitly.
-/

namespace PaymentsUz

/-- Canonical payment status (`PaymentStatus` enum in src/types.ts). -/
inductive PaymentStatus where
  | PENDING
  | SUCCESS
  | FAILED
  | CANCELLED
  | REFUNDED
deriving DecidableEq, Repr

/-- JavaScript truthiness of an optional string: `undefined` and `""` are falsy. -/
def truthyStr : Option String → Bool
  | none => false
  | some s => !(s == "")

/-- `getStatusFromPaymeReceiptState` (src/payme/utils.ts): a switch over the
Payme receipt state code; the optional argument models an `undefined` input. -/
def getStatusFromPaymeReceiptState (paymeStateCode : Option Int) : PaymentStatus :=
  match paymeStateCode with
  | some n =>
    if n = 0 then .PENDING
    else if n = 1 then .PENDING
    else if n = 2 then .SUCCESS
    else if n = 3 then .CANCELLED
    else if n = 4 then .CANCELLED
    else if n = 5 then .PENDING
    else if n = 6 then .REFUNDED
    else .FAILED
  | none => .FAILED

/-- `getStatusFromClickCode` (src/click/status.ts): a switch over the Click
payment status code; the optional argument models an `undefined` input. -/
def getStatusFromClickCode (clickStatusCode : Option Int) : PaymentStatus :=
  match clickStatusCode with
  | some n =>
    if n = 0 then .PENDING
    else if n = 1 then .PENDING
    else if n = 2 then .SUCCESS
    else if n = 3 then .CANCELLED
    else if n = 5 then .CANCELLED
    else if n = 4 then .REFUNDED
    else .FAILED
  | none => .FAILED

/-- `ClickError` (src/errors/ClickError.ts): typed error carrying message and code. -/
structure ClickError where
  message : String
  code : Int
deriving DecidableEq, Repr

/-- Response shape of POST `/card_token/request` (src/click/types.ts). -/
structure ClickCreateCardTokenResponse where
  card_token : String
  phone_number : String
  card_number : String
  temporary : Int
  error_code : Int
  error_note : String
deriving DecidableEq, Repr

/-- Response shape of POST `/card_token/payment` (src/click/types.ts). -/
structure ClickChargeFromCardTokenResponse where
  payment_id : Int
  payment_status : Int
  error_code : Int
  error_note : String
deriving DecidableEq, Repr

/-- `ProcessedPaymentResult` (src/click/types.ts). -/
structure ProcessedPaymentResult where
  transactionId : Int
  status : PaymentStatus
deriving DecidableEq, Repr

/-- Return shape of `ClickClient.createCardToken`. -/
structure CreateCardTokenOutcome where
  cardToken : String
  requiresVerification : Bool
deriving DecidableEq, Repr

/-- `ClickClient.createCardToken` (src/click/ClickClient.ts, lines 66-82),
modelled from the provider response onward: a negative `error_code` or a
falsy `card_token` raises `ClickError`; otherwise the card token is returned
with `requiresVerification` fixed to `true`. -/
def clickCreateCardToken (response : ClickCreateCardTokenResponse) :
    Except ClickError CreateCardTokenOutcome :=
  if response.error_code < 0 ∨ response.card_token = "" then
    .error ⟨response.error_note, response.error_code⟩
  else
    .ok ⟨response.card_token, true⟩

/-- `ClickClient.chargeFromCardToken` (src/click/ClickClient.ts, lines 102-120),
modelled from the provider response onward: `error_code < 0`, or
`payment_status ≠ 2` together with `error_code = 0`, raises `ClickError`;
otherwise the result status is derived through the status normalizer. -/
def clickChargeFromCardToken (response : ClickChargeFromCardTokenResponse) :
    Except ClickError ProcessedPaymentResult :=
  if response.error_code < 0 ∨ (response.payment_status ≠ 2 ∧ response.error_code = 0) then
    .error ⟨response.error_note, response.error_code⟩
  else
    .ok ⟨response.payment_id, getStatusFromClickCode (some response.payment_status)⟩

/-- The localized message object of a Payme JSON-RPC error
(src/payme/types.ts): each language entry is optional. -/
structure PaymeMessageL where
  ru : Option String
  uz : Option String
  en : Option String
deriving DecidableEq, Repr

/-- `PaymeJsonRpcError` (src/payme/types.ts); the `data` payload is modelled
as an optional string. -/
structure PaymeJsonRpcError where
  code : Int
  message : PaymeMessageL
  data : Option String
deriving DecidableEq, Repr

/-- `PaymeError` (src/errors/PaymeError.ts): typed domain error with message,
code and optional data payload. -/
structure PaymeError where
  message : String
  code : Int
  data : Option String
deriving DecidableEq, Repr

/-- JavaScript `a || b` specialised to an optional string on the left and a
string fallback on the right: `undefined` and `""` fall through. -/
def jsOrStr (a : Option String) (b : String) : String :=
  match a with
  | some s => if s = "" then b else s
  | none => b

/-- `PaymeError.fromJsonRpcError` (src/errors/PaymeError.ts, lines 32-35):
`error.message?.en || error.message?.ru || error.message?.uz || 'Unknown Payme Error'`. -/
def PaymeError.fromJsonRpcError (error : PaymeJsonRpcError) : PaymeError :=
  ⟨jsOrStr error.message.en (jsOrStr error.message.ru (jsOrStr error.message.uz "Unknown Payme Error")),
   error.code, error.data⟩

/-- `Receipt` (src/payme/types.ts); `_id` is optional here so that a missing
receipt id at runtime is representable. -/
structure Receipt where
  _id : Option String
  create_time : Int
  pay_time : Int
  cancel_time : Int
  state : Int
  amount : Int
deriving DecidableEq, Repr

/-- Result shape shared by `receipts.create` and `receipts.pay`
(src/payme/types.ts). -/
structure PaymeReceiptResult where
  receipt : Receipt
deriving DecidableEq, Repr

/-- `PaymeJsonRpcResponse` (src/payme/types.ts), specialised to the receipt
RPCs of the charge flow. -/
structure PaymeJsonRpcResponse where
  result : Option PaymeReceiptResult
  error : Option PaymeJsonRpcError
deriving DecidableEq, Repr

/-- `PaymeCreateReceiptParams` (src/payme/types.ts); the `account` object of
the source is flattened to its single `order_id` entry. -/
structure PaymeCreateReceiptParams where
  amount : Int
  order_id : String
  description : String
deriving DecidableEq, Repr

/-- `PaymePayReceiptParams` (src/payme/types.ts). -/
structure PaymePayReceiptParams where
  id : String
  token : String
deriving DecidableEq, Repr

/-- An outbound JSON-RPC call issued by the charge flow, tagged by method. -/
inductive PaymeRpcCall where
  | create (params : PaymeCreateReceiptParams)
  | pay (params : PaymePayReceiptParams)
deriving DecidableEq, Repr

/-- Failure of one RPC round trip: a typed `PaymeError` from the response
handling of `PaymeClient.request`, or a transport failure. -/
inductive PaymeCallError where
  | api (e : PaymeError)
  | transport
deriving DecidableEq, Repr

/-- Response handling of `PaymeClient.request` (src/payme/PaymeClient.ts,
lines 53-74): a JSON-RPC `error` is converted through
`PaymeError.fromJsonRpcError`; a missing `result` raises the -32000 error.
A missing response (`none`) models a transport failure. -/
def paymeRpc (response : Option PaymeJsonRpcResponse) :
    Except PaymeCallError PaymeReceiptResult :=
  match response with
  | none => .error .transport
  | some r =>
    match r.error with
    | some e => .error (.api (PaymeError.fromJsonRpcError e))
    | none =>
      match r.result with
      | none => .error (.api ⟨"Received empty result from Payme API.", -32000, none⟩)
      | some result => .ok result

/-- `ProcessedReceiptResult` (src/payme/types.ts). -/
structure ProcessedReceiptResult where
  transactionId : Option String
  status : PaymentStatus
  receipt : Receipt
deriving DecidableEq, Repr

/-- `PaymeClient.chargeFromCardToken` (src/payme/PaymeClient.ts, lines
118-144): create a receipt with the amount converted to tiyins (×100), fail
hard with the -32001 error when the returned receipt id is falsy, otherwise
pay the receipt.  Provider responses are consumed from `responses` in order;
the first component of the result is the list of RPC calls issued, in
order. -/
def chargeFromCardToken (amount : Int) (orderId cardToken : String)
    (responses : List PaymeJsonRpcResponse) :
    List PaymeRpcCall × Except PaymeCallError ProcessedReceiptResult :=
  let createReceiptParams : PaymeCreateReceiptParams :=
    ⟨amount * 100, orderId, "Payment for order " ++ orderId⟩
  match paymeRpc responses[0]? with
  | .error e => ([.create createReceiptParams], .error e)
  | .ok createResult =>
    if truthyStr createResult.receipt._id then
      let payReceiptParams : PaymePayReceiptParams :=
        ⟨createResult.receipt._id.getD "", cardToken⟩
      match paymeRpc responses[1]? with
      | .error e => ([.create createReceiptParams, .pay payReceiptParams], .error e)
      | .ok payResult =>
        ([.create createReceiptParams, .pay payReceiptParams],
          .ok ⟨payResult.receipt._id,
            getStatusFromPaymeReceiptState (some payResult.receipt.state),
            payResult.receipt⟩)
    else
      ([.create createReceiptParams], .error (.api ⟨"Failed to create receipt.", -32001, none⟩))

/-- A JSON-RPC request/response id (`number | string` in src/payme/types.ts). -/
inductive RpcId where
  | num (n : Int)
  | str (s : String)
deriving DecidableEq, Repr

/-- JavaScript truthiness of an optional request id: `undefined`, `0` and
`""` are falsy. -/
def truthyId : Option RpcId → Bool
  | none => false
  | some (.num n) => !(n == 0)
  | some (.str s) => !(s == "")

/-- The id used by the catch block of `PaymeWebhookHandler.handle`
(src/payme/PaymeWebhookHandler.ts, line 96): `body?.id || Date.now()`, with
`Date.now()` passed in as `now`. -/
def catchId (bodyId : Option RpcId) (now : Int) : RpcId :=
  if truthyId bodyId then bodyId.getD (.num now) else .num now

/-- A parsed webhook request body (`PaymeJsonRpcRequest` in
src/payme/types.ts); `params` stays abstract in the dispatcher. -/
structure PaymeWebhookBody (V : Type) where
  id : Option RpcId
  method : String
  params : V

/-- Outcome of one caller-supplied business-logic method: a `{result}` value,
a returned `{error}` object, a thrown typed `PaymeError`, or any other
thrown exception carrying its message. -/
inductive PaymeLogicOutcome (V : Type) where
  | ok (result : V)
  | err (error : PaymeJsonRpcError)
  | thrownPayme (e : PaymeError)
  | thrownOther (message : String)

/-- `PaymeWebhookLogic` (src/payme/types.ts): the six caller-supplied
business-logic methods, each taking the request params and the request id. -/
structure PaymeWebhookLogic (V : Type) where
  checkPerformTransaction : V → Option RpcId → PaymeLogicOutcome V
  createTransaction : V → Option RpcId → PaymeLogicOutcome V
  performTransaction : V → Option RpcId → PaymeLogicOutcome V
  cancelTransaction : V → Option RpcId → PaymeLogicOutcome V
  checkTransaction : V → Option RpcId → PaymeLogicOutcome V
  getStatement : V → Option RpcId → PaymeLogicOutcome V

/-- The JSON-RPC response envelope returned by the webhook handler
(`PaymeJsonRpcResponse` in src/payme/types.ts, with an abstract result). -/
structure PaymeRpcEnvelope (V : Type) where
  id : Option RpcId
  result : Option V
  error : Option PaymeJsonRpcError

/-- JavaScript `String.prototype.split` with a one-character separator,
char-list worker: accumulates the current segment in reverse. -/
def jsSplitAux (sep : Char) : List Char → List Char → List (List Char)
  | [], acc => [acc.reverse]
  | c :: cs, acc =>
    if c = sep then acc.reverse :: jsSplitAux sep cs []
    else jsSplitAux sep cs (c :: acc)

/-- JavaScript `s.split(sep)` for a one-character separator. -/
def jsSplit (sep : Char) (s : String) : List String :=
  (jsSplitAux sep s.data []).map String.mk

/-- `PaymeWebhookHandler.verifyAuth` (src/payme/PaymeWebhookHandler.ts, lines
35-46); Base64 decoding of the credential part (node:buffer) is the abstract
parameter `decode`.  Returns the thrown `PaymeError`, or `none` when
authentication passes: the header must start with `"Basic "`, and the decoded
credentials split on `':'` must have first segment `"Paycom"` and second
segment equal to the configured secret. -/
def verifyAuth (decode : String → String) (secretKey : String)
    (authHeader : Option String) : Option PaymeError :=
  match authHeader with
  | none => some ⟨"Unauthorized", -32504, some "Authorization header missing or invalid"⟩
  | some h =>
    if "Basic ".data.isPrefixOf h.data then
      let credentials := decode (String.mk (h.data.drop 6))
      let parts := jsSplit ':' credentials
      if parts[0]? = some "Paycom" ∧ parts[1]? = some secretKey then none
      else some ⟨"Unauthorized", -32504, some "Invalid login or password"⟩
    else some ⟨"Unauthorized", -32504, some "Authorization header missing or invalid"⟩

/-- The `switch (method)` of `PaymeWebhookHandler.handle`
(src/payme/PaymeWebhookHandler.ts, lines 63-84): dispatch to the matching
business-logic method; an unknown method throws the -32601 `PaymeError`. -/
def dispatchMethod {V : Type} (logic : PaymeWebhookLogic V) (body : PaymeWebhookBody V) :
    PaymeLogicOutcome V :=
  if body.method = "CheckPerformTransaction" then
    logic.checkPerformTransaction body.params body.id
  else if body.method = "CreateTransaction" then
    logic.createTransaction body.params body.id
  else if body.method = "PerformTransaction" then
    logic.performTransaction body.params body.id
  else if body.method = "CancelTransaction" then
    logic.cancelTransaction body.params body.id
  else if body.method = "CheckTransaction" then
    logic.checkTransaction body.params body.id
  else if body.method = "GetStatement" then
    logic.getStatement body.params body.id
  else
    .thrownPayme ⟨"Method not found", -32601, none⟩

/-- `PaymeWebhookHandler.handle` (src/payme/PaymeWebhookHandler.ts, lines
54-98): authenticate, dispatch, wrap the outcome into the JSON-RPC envelope;
every thrown error — from authentication, dispatch or business logic — is
caught and converted: a `PaymeError` to `{code, message: {en}, data}`, any
other exception to the generic -32400 error. -/
def paymeHandle {V : Type} (decode : String → String) (secretKey : String)
    (logic : PaymeWebhookLogic V) (now : Int) (body : PaymeWebhookBody V)
    (authorizationHeader : Option String) : PaymeRpcEnvelope V :=
  match verifyAuth decode secretKey authorizationHeader with
  | some e => ⟨some (catchId body.id now), none, some ⟨e.code, ⟨none, none, some e.message⟩, e.data⟩⟩
  | none =>
    match dispatchMethod logic body with
    | .ok r => ⟨body.id, some r, none⟩
    | .err e => ⟨body.id, none, some e⟩
    | .thrownPayme e =>
      ⟨some (catchId body.id now), none, some ⟨e.code, ⟨none, none, some e.message⟩, e.data⟩⟩
    | .thrownOther m =>
      ⟨some (catchId body.id now), none,
        some ⟨-32400, ⟨none, none, some "Internal Server Error"⟩, some m⟩⟩

/-- `ClickWebhookBody` (src/click/types.ts), restricted to the fields read by
signature verification; `merchant_prepare_id` is optional. -/
structure ClickWebhookBody where
  click_trans_id : String
  service_id : String
  merchant_trans_id : String
  merchant_prepare_id : Option String
  amount : String
  action : Int
  sign_time : String
  sign_string : String
deriving DecidableEq, Repr

/-- `verifyWebhookSignature` (src/click/utils.ts, lines 26-54): the MD5 hex
digest (node:crypto) is the abstract parameter `md5hex`; the hashed string is
the pipe-joined field list, where `merchant_prepare_id` is spread in exactly
when `action === 1` and the field is truthy. -/
def verifyWebhookSignature (md5hex : String → String) (body : ClickWebhookBody)
    (secretKey : String) : Bool :=
  let stringToHash := String.intercalate "|"
    ([body.click_trans_id, body.service_id, secretKey, body.merchant_trans_id] ++
      (if body.action = 1 ∧ truthyStr body.merchant_prepare_id then
        [body.merchant_prepare_id.getD ""]
      else []) ++
      [body.amount, toString body.action, body.sign_time])
  md5hex stringToHash == body.sign_string

/-- `ClickWebhookHandler.verifySignature` (src/click/ClickWebhookHandler.ts,
lines 21-26): throws `ClickError` with the fixed code -1 when verification
fails. -/
def clickVerifySignature (md5hex : String → String) (secretKey : String)
    (body : ClickWebhookBody) : Except ClickError Unit :=
  if verifyWebhookSignature md5hex body secretKey then .ok ()
  else .error ⟨"Invalid webhook signature.", -1⟩

/-- The signed field list as claim C6 words it: `merchant_prepare_id` is
included exactly when the action is complete (1) and the field is present. -/
def claimSignFieldsPresent (body : ClickWebhookBody) (secretKey : String) : List String :=
  [body.click_trans_id, body.service_id, secretKey, body.merchant_trans_id] ++
    (if body.action = 1 ∧ body.merchant_prepare_id.isSome then
      [body.merchant_prepare_id.getD ""]
    else []) ++
    [body.amount, toString body.action, body.sign_time]

/-- The signed field list with the amended inclusion condition:
`merchant_prepare_id` is included exactly when the action is complete (1) and
the field is present and non-empty (truthy). -/
def amendedSignFieldsTruthy (body : ClickWebhookBody) (secretKey : String) : List String :=
  [body.click_trans_id, body.service_id, secretKey, body.merchant_trans_id] ++
    (if body.action = 1 ∧ truthyStr body.merchant_prepare_id then
      [body.merchant_prepare_id.getD ""]
    else []) ++
    [body.amount, toString body.action, body.sign_time]

/-- A concrete business-logic implementation over integer payloads, used to
observe that the dispatcher actually invoked the logic. -/
def intLogic : PaymeWebhookLogic Int :=
  ⟨fun _ _ => .ok 7, fun _ _ => .err ⟨-31050, ⟨none, none, some "e"⟩, none⟩,
   fun _ _ => .thrownOther "boom", fun _ _ => .ok 1, fun _ _ => .ok 2, fun _ _ => .ok 3⟩

/-- C2: every code in each provider's mapping table is sent to the documented
canonical status (Payme: 0,1,5 ↦ PENDING; 2 ↦ SUCCESS; 3,4 ↦ CANCELLED;
6 ↦ REFUNDED — Click: 0,1 ↦ PENDING; 2 ↦ SUCCESS; 3,5 ↦ CANCELLED;
4 ↦ REFUNDED), and every other input, including `undefined`, negative and
out-of-range codes, yields FAILED (hence never PENDING or SUCCESS). -/
theorem status_normalizer_mapping_tables :
    (getStatusFromPaymeReceiptState (some 0) = .PENDING ∧
     getStatusFromPaymeReceiptState (some 1) = .PENDING ∧
     getStatusFromPaymeReceiptState (some 5) = .PENDING ∧
     getStatusFromPaymeReceiptState (some 2) = .SUCCESS ∧
     getStatusFromPaymeReceiptState (some 3) = .CANCELLED ∧
     getStatusFromPaymeReceiptState (some 4) = .CANCELLED ∧
     getStatusFromPaymeReceiptState (some 6) = .REFUNDED) ∧
    (getStatusFromClickCode (some 0) = .PENDING ∧
     getStatusFromClickCode (some 1) = .PENDING ∧
     getStatusFromClickCode (some 2) = .SUCCESS ∧
     getStatusFromClickCode (some 3) = .CANCELLED ∧
     getStatusFromClickCode (some 5) = .CANCELLED ∧
     getStatusFromClickCode (some 4) = .REFUNDED) ∧
    (∀ c : Option Int,
       c ∉ ([some 0, some 1, some 2, some 3, some 4, some 5, some 6] : List (Option Int)) →
       getStatusFromPaymeReceiptState c = .FAILED) ∧
    (∀ c : Option Int,
       c ∉ ([some 0, some 1, some 2, some 3, some 4, some 5] : List (Option Int)) →
       getStatusFromClickCode c = .FAILED) := by
  refine ⟨by decide, by decide, ?_, ?_⟩
  · intro c hc
    match c with
    | none => rfl
    | some n =>
      simp only [List.mem_cons, List.not_mem_nil, or_false, Option.some.injEq] at hc
      push_neg at hc
      obtain ⟨h0, h1, h2, h3, h4, h5, h6⟩ := hc
      simp [getStatusFromPaymeReceiptState, h0, h1, h2, h3, h4, h5, h6]
  · intro c hc
    match c with
    | none => rfl
    | some n =>
      simp only [List.mem_cons, List.not_mem_nil, or_false, Option.some.injEq] at hc
      push_neg at hc
      obtain ⟨h0, h1, h2, h3, h4, h5⟩ := hc
      simp [getStatusFromClickCode, h0, h1, h2, h3, h4, h5]

/-- Witness for C2: concrete out-of-table inputs evaluate to FAILED. -/
theorem status_normalizer_mapping_tables_witness :
    getStatusFromPaymeReceiptState (some 7) = .FAILED ∧
    getStatusFromClickCode (some (-3)) = .FAILED :=
  ⟨status_normalizer_mapping_tables.2.2.1 (some 7) (by decide),
   status_normalizer_mapping_tables.2.2.2 (some (-3)) (by decide)⟩

/-- C3: the Click charge succeeds exactly when the error code is non-negative
and, whenever the error code is exactly zero, the payment status equals the
confirmed value 2; any other combination raises a typed `ClickError` built
from the response's error note and code, even though the transport call
itself succeeded. -/
theorem click_charge_success_condition (response : ClickChargeFromCardTokenResponse) :
    ((∃ r, clickChargeFromCardToken response = .ok r) ↔
      (0 ≤ response.error_code ∧
        (response.error_code = 0 → response.payment_status = 2))) ∧
    (¬ (0 ≤ response.error_code ∧
        (response.error_code = 0 → response.payment_status = 2)) →
      clickChargeFromCardToken response = .error ⟨response.error_note, response.error_code⟩) := by
  constructor
  · constructor
    · rintro ⟨r, hr⟩
      by_cases hcond :
          response.error_code < 0 ∨ (response.payment_status ≠ 2 ∧ response.error_code = 0)
      · simp [clickChargeFromCardToken, hcond] at hr
      · push_neg at hcond
        refine ⟨by omega, fun h0 => ?_⟩
        rcases hcond with ⟨_, himp⟩
        by_cases hps : response.payment_status = 2
        · exact hps
        · exact absurd h0 (himp hps)
    · rintro ⟨hpos, himp⟩
      have hcond :
          ¬ (response.error_code < 0 ∨ (response.payment_status ≠ 2 ∧ response.error_code = 0)) := by
        push_neg
        exact ⟨by omega, fun hps => fun h0 => hps (himp h0)⟩
      refine ⟨⟨response.payment_id, getStatusFromClickCode (some response.payment_status)⟩, ?_⟩
      simp [clickChargeFromCardToken, hcond]
  · intro hfail
    have hcond :
        response.error_code < 0 ∨ (response.payment_status ≠ 2 ∧ response.error_code = 0) := by
      by_cases hneg : response.error_code < 0
      · exact Or.inl hneg
      · right
        push_neg at hfail
        have h0 := hfail (by omega)
        rcases h0 with ⟨he0, hps⟩
        exact ⟨hps, he0⟩
    simp [clickChargeFromCardToken, hcond]

/-- Witness for C3: a zero error code with unconfirmed payment status is
rejected with the typed error. -/
theorem click_charge_success_condition_witness :
    clickChargeFromCardToken ⟨1, 0, 0, "err"⟩ = .error ⟨"err", 0⟩ :=
  (click_charge_success_condition ⟨1, 0, 0, "err"⟩).2 (by decide)

/-- C9: whenever Click tokenization is accepted (non-negative error code and
non-empty card token), the returned `requiresVerification` flag is the
constant `true`, independent of every field of the provider response. -/
theorem click_create_card_token_requires_verification
    (response : ClickCreateCardTokenResponse) :
    (∀ r, clickCreateCardToken response = .ok r → r.requiresVerification = true) ∧
    (0 ≤ response.error_code → response.card_token ≠ "" →
      clickCreateCardToken response = .ok ⟨response.card_token, true⟩) := by
  constructor
  · intro r hr
    by_cases hcond : response.error_code < 0 ∨ response.card_token = ""
    · simp [clickCreateCardToken, hcond] at hr
    · simp [clickCreateCardToken, hcond] at hr
      rw [← hr]
  · intro hpos htok
    have hcond : ¬ (response.error_code < 0 ∨ response.card_token = "") := by
      push_neg
      exact ⟨by omega, htok⟩
    simp [clickCreateCardToken, hcond]

/-- Witness for C9: a concrete accepted tokenization response yields
`requiresVerification = true`. -/
theorem click_create_card_token_requires_verification_witness :
    clickCreateCardToken ⟨"tok", "998", "8600", 0, 0, "Success"⟩ = .ok ⟨"tok", true⟩ :=
  (click_create_card_token_requires_verification ⟨"tok", "998", "8600", 0, 0, "Success"⟩).2
    (by decide) (by decide)

/-- Counterexample for C7: on a JSON-RPC error with no localized message the
factory's fallback message is the fixed string "Unknown Payme Error", not
"Unknown error" as claimed. -/
theorem payme_error_fallback_counterexample :
    (PaymeError.fromJsonRpcError ⟨-32000, ⟨none, none, none⟩, none⟩).message = "Unknown Payme Error" ∧
    (PaymeError.fromJsonRpcError ⟨-32000, ⟨none, none, none⟩, none⟩).message ≠ "Unknown error" := by
  constructor
  · rfl
  · decide

/-- C7 (amended): `PaymeError.fromJsonRpcError` selects the first available
(present and non-empty) localized message in priority order English, then
Russian, then Uzbek, and when none is available uses the fixed fallback
string "Unknown Payme Error"; code and data are passed through.  In
particular an error carrying only a non-empty Russian message yields that
Russian text. -/
theorem payme_error_message_priority (e : PaymeJsonRpcError) :
    (∀ s, e.message.en = some s → s ≠ "" →
      (PaymeError.fromJsonRpcError e).message = s) ∧
    (truthyStr e.message.en = false → ∀ s, e.message.ru = some s → s ≠ "" →
      (PaymeError.fromJsonRpcError e).message = s) ∧
    (truthyStr e.message.en = false → truthyStr e.message.ru = false →
      ∀ s, e.message.uz = some s → s ≠ "" →
      (PaymeError.fromJsonRpcError e).message = s) ∧
    (truthyStr e.message.en = false → truthyStr e.message.ru = false →
      truthyStr e.message.uz = false →
      (PaymeError.fromJsonRpcError e).message = "Unknown Payme Error") ∧
    ((PaymeError.fromJsonRpcError e).code = e.code ∧
      (PaymeError.fromJsonRpcError e).data = e.data) := by
  have hfalsy : ∀ o : Option String, truthyStr o = false → ∀ b, jsOrStr o b = b := by
    intro o ho b
    match o with
    | none => rfl
    | some s =>
      simp [truthyStr] at ho
      simp [jsOrStr, ho]
  refine ⟨?_, ?_, ?_, ?_, rfl, rfl⟩
  · intro s hs hne
    simp [PaymeError.fromJsonRpcError, hs, jsOrStr, hne]
  · intro hen s hs hne
    simp only [PaymeError.fromJsonRpcError, hfalsy e.message.en hen]
    simp [hs, jsOrStr, hne]
  · intro hen hru s hs hne
    simp only [PaymeError.fromJsonRpcError, hfalsy e.message.en hen, hfalsy e.message.ru hru]
    simp [hs, jsOrStr, hne]
  · intro hen hru huz
    simp only [PaymeError.fromJsonRpcError, hfalsy e.message.en hen, hfalsy e.message.ru hru,
      hfalsy e.message.uz huz]

/-- Witness for C7 (amended): an error with only a Russian message yields that
Russian text. -/
theorem payme_error_message_priority_witness :
    (PaymeError.fromJsonRpcError ⟨-32000, ⟨some "Неверный запрос", none, none⟩, none⟩).message =
      "Неверный запрос" :=
  (payme_error_message_priority ⟨-32000, ⟨some "Неверный запрос", none, none⟩, none⟩).2.1
    rfl "Неверный запрос" rfl (by decide)

/-- C1: for every sequence of provider responses the charge flow issues
`receipts.create` first, any `receipts.pay` call only ever appears directly
after the create call, and if the create call's receipt id is empty or
missing the flow stops with a typed error and never issues the pay call. -/
theorem payme_charge_create_before_pay (amount : Int) (orderId cardToken : String)
    (responses : List PaymeJsonRpcResponse) :
    (∃ p, ((chargeFromCardToken amount orderId cardToken responses).1)[0]? =
        some (.create p)) ∧
    (∀ pp, PaymeRpcCall.pay pp ∈ (chargeFromCardToken amount orderId cardToken responses).1 →
      ∃ cp, (chargeFromCardToken amount orderId cardToken responses).1 =
        [.create cp, .pay pp]) ∧
    (∀ r, responses[0]? = some r → r.error = none →
      (r.result = none ∨
        ∃ res, r.result = some res ∧ truthyStr res.receipt._id = false) →
      ((chargeFromCardToken amount orderId cardToken responses).2 =
          .error (.api ⟨"Received empty result from Payme API.", -32000, none⟩) ∨
        (chargeFromCardToken amount orderId cardToken responses).2 =
          .error (.api ⟨"Failed to create receipt.", -32001, none⟩)) ∧
      (∀ pp, PaymeRpcCall.pay pp ∉ (chargeFromCardToken amount orderId cardToken responses).1)) := by
  refine ⟨?_, ?_, ?_⟩
  · refine ⟨⟨amount * 100, orderId, "Payment for order " ++ orderId⟩, ?_⟩
    rcases h0 : paymeRpc responses[0]? with e | createResult
    · simp [chargeFromCardToken, h0]
    · by_cases hid : truthyStr createResult.receipt._id
      · rcases h1 : paymeRpc responses[1]? with e | payResult
        · simp [chargeFromCardToken, h0, hid, h1]
        · simp [chargeFromCardToken, h0, hid, h1]
      · simp [chargeFromCardToken, h0, hid]
  · intro pp hmem
    refine ⟨⟨amount * 100, orderId, "Payment for order " ++ orderId⟩, ?_⟩
    rcases h0 : paymeRpc responses[0]? with e | createResult
    · simp [chargeFromCardToken, h0] at hmem
    · by_cases hid : truthyStr createResult.receipt._id
      · rcases h1 : paymeRpc responses[1]? with e | payResult
        · simp only [chargeFromCardToken, h0, hid, h1, if_true] at hmem ⊢
          simp at hmem
          simp [hmem]
        · simp only [chargeFromCardToken, h0, hid, h1, if_true] at hmem ⊢
          simp at hmem
          simp [hmem]
      · simp [chargeFromCardToken, h0, hid] at hmem
  · intro r hr herr hfalsy
    have h0 : paymeRpc responses[0]? =
        .error (.api ⟨"Received empty result from Payme API.", -32000, none⟩) ∨
        ∃ res, paymeRpc responses[0]? = .ok res ∧ truthyStr res.receipt._id = false := by
      rcases hfalsy with hnone | ⟨res, hres, hid⟩
      · left
        simp [paymeRpc, hr, herr, hnone]
      · right
        exact ⟨res, by simp [paymeRpc, hr, herr, hres], hid⟩
    rcases h0 with h0 | ⟨res, h0, hid⟩
    · constructor
      · left
        simp [chargeFromCardToken, h0]
      · intro pp
        simp [chargeFromCardToken, h0]
    · constructor
      · right
        simp [chargeFromCardToken, h0, hid]
      · intro pp
        simp [chargeFromCardToken, h0, hid]

/-- Witness for C1: with a create response whose receipt id is the empty
string, the pay call is never issued. -/
theorem payme_charge_create_before_pay_witness :
    PaymeRpcCall.pay ⟨"", "tok"⟩ ∉
      (chargeFromCardToken 5 "ord" "tok"
        [⟨some ⟨⟨some "", 0, 0, 0, 0, 500⟩⟩, none⟩]).1 :=
  ((payme_charge_create_before_pay 5 "ord" "tok"
      [⟨some ⟨⟨some "", 0, 0, 0, 0, 500⟩⟩, none⟩]).2.2
    ⟨some ⟨⟨some "", 0, 0, 0, 0, 500⟩⟩, none⟩ rfl rfl
    (Or.inr ⟨⟨⟨some "", 0, 0, 0, 0, 500⟩⟩, rfl, rfl⟩)).2 ⟨"", "tok"⟩

/-- C8: an amount of 1000 major units is sent to `receipts.create` as exactly
100000 (the input multiplied by 100), and whenever the charge flow returns a
result whose final receipt state is 2 the returned status is SUCCESS. -/
theorem payme_charge_amount_conversion_and_success (orderId cardToken : String)
    (responses : List PaymeJsonRpcResponse) :
    (∃ p, ((chargeFromCardToken 1000 orderId cardToken responses).1)[0]? =
        some (.create p) ∧ p.amount = 100000) ∧
    (∀ res, (chargeFromCardToken 1000 orderId cardToken responses).2 = .ok res →
      res.receipt.state = 2 → res.status = .SUCCESS) := by
  constructor
  · refine ⟨⟨1000 * 100, orderId, "Payment for order " ++ orderId⟩, ?_, by norm_num⟩
    rcases h0 : paymeRpc responses[0]? with e | createResult
    · simp [chargeFromCardToken, h0]
    · by_cases hid : truthyStr createResult.receipt._id
      · rcases h1 : paymeRpc responses[1]? with e | payResult
        · simp [chargeFromCardToken, h0, hid, h1]
        · simp [chargeFromCardToken, h0, hid, h1]
      · simp [chargeFromCardToken, h0, hid]
  · intro res hres hstate
    rcases h0 : paymeRpc responses[0]? with e | createResult
    · simp [chargeFromCardToken, h0] at hres
    · by_cases hid : truthyStr createResult.receipt._id
      · rcases h1 : paymeRpc responses[1]? with e | payResult
        · simp [chargeFromCardToken, h0, hid, h1] at hres
        · simp only [chargeFromCardToken, h0, hid, h1, if_true] at hres
          simp at hres
          rw [← hres] at hstate ⊢
          simp at hstate
          simp [hstate, getStatusFromPaymeReceiptState]
      · simp [chargeFromCardToken, h0, hid] at hres

/-- Witness for C8: a concrete successful two-response run with final state 2
returns SUCCESS. -/
theorem payme_charge_amount_conversion_and_success_witness :
    ((chargeFromCardToken 1000 "ord" "tok"
        [⟨some ⟨⟨some "r1", 0, 0, 0, 0, 100000⟩⟩, none⟩,
         ⟨some ⟨⟨some "r1", 1, 2, 0, 2, 100000⟩⟩, none⟩]).2 =
      .ok ⟨some "r1", .SUCCESS, ⟨some "r1", 1, 2, 0, 2, 100000⟩⟩) ∧
    (⟨some "r1", PaymentStatus.SUCCESS, ⟨some "r1", 1, 2, 0, 2, 100000⟩⟩ :
        ProcessedReceiptResult).status = .SUCCESS :=
  ⟨rfl,
   (payme_charge_amount_conversion_and_success "ord" "tok"
      [⟨some ⟨⟨some "r1", 0, 0, 0, 0, 100000⟩⟩, none⟩,
       ⟨some ⟨⟨some "r1", 1, 2, 0, 2, 100000⟩⟩, none⟩]).2
    ⟨some "r1", .SUCCESS, ⟨some "r1", 1, 2, 0, 2, 100000⟩⟩ rfl rfl⟩

theorem string_mk_data (s : String) : String.mk s.data = s := rfl

theorem string_eq_of_data (a b : String) (h : a.data = b.data) : a = b := by
  cases a
  cases b
  exact congrArg String.mk h

theorem isPrefixOf_iff_exists (l p : List Char) : l.isPrefixOf p = true ↔ ∃ t, l ++ t = p := by
  rw [ List.isPrefixOf_iff_prefix]
  exact Iff.rfl

theorem jsSplitAux_no_sep (sep : Char) :
    ∀ (cs acc : List Char), sep ∉ acc → ∀ l ∈ jsSplitAux sep cs acc, sep ∉ l := by
  intro cs
  induction cs with
  | nil =>
    intro acc hacc l hl
    simp [jsSplitAux] at hl
    subst hl
    simpa using hacc
  | cons c cs ih =>
    intro acc hacc l hl
    by_cases hc : c = sep
    · simp [jsSplitAux, hc] at hl
      rcases hl with hl | hl
      · subst hl
        simpa using hacc
      · exact ih [] (by simp) l hl
    · simp only [jsSplitAux, hc, if_false] at hl
      refine ih (c :: acc) ?_ l hl
      intro hmem
      rcases List.mem_cons.mp hmem with h | h
      · exact hc h.symm
      · exact hacc h

theorem jsSplit_no_sep (sep : Char) (s : String) :
    ∀ p : String, p ∈ jsSplit sep s → sep ∉ p.data := by
  intro p hp
  simp only [jsSplit, List.mem_map] at hp
  rcases hp with ⟨cl, hcl, hmk⟩
  have hns := jsSplitAux_no_sep sep s.data [] (by simp) cl hcl
  rw [← hmk]
  exact hns

/-- Characterisation of successful webhook authentication: the header is
exactly `"Basic "` followed by a credential part whose decoding splits on
`':'` into first segment `"Paycom"` and second segment the configured
secret. -/
theorem verifyAuth_none_iff (decode : String → String) (secretKey : String)
    (authHeader : Option String) :
    verifyAuth decode secretKey authHeader = none ↔
      ∃ rest : String, authHeader = some ("Basic " ++ rest) ∧
        (jsSplit ':' (decode rest))[0]? = some "Paycom" ∧
        (jsSplit ':' (decode rest))[1]? = some secretKey := by
  constructor
  · intro hnone
    match authHeader with
    | none => simp [verifyAuth] at hnone
    | some h =>
      by_cases hpre : "Basic ".data.isPrefixOf h.data = true
      · rcases (isPrefixOf_iff_exists _ _).mp hpre with ⟨t, ht⟩
        have hdata : h.data = "Basic ".data ++ t := ht.symm
        have hdrop : h.data.drop 6 = t := by
          rw [hdata]
          have h6 : ("Basic ".data).length = 6 := rfl
          rw [← h6]
          exact List.drop_left _ _
        have hh : h = "Basic " ++ String.mk t := by
          refine string_eq_of_data _ _ ?_
          rw [hdata, String.data_append]
        by_cases hcond :
            (jsSplit ':' (decode (String.mk (h.data.drop 6))))[0]? = some "Paycom" ∧
            (jsSplit ':' (decode (String.mk (h.data.drop 6))))[1]? = some secretKey
        · rw [hdrop] at hcond
          exact ⟨String.mk t, by rw [hh], hcond.1, hcond.2⟩
        · exfalso
          simp [verifyAuth, hpre, hcond] at hnone
      · exfalso
        simp [verifyAuth, hpre] at hnone
  · rintro ⟨rest, hh, h0, h1⟩
    subst hh
    have hpre : "Basic ".data.isPrefixOf ("Basic " ++ rest).data = true := by
      rw [String.data_append]
      exact (isPrefixOf_iff_exists _ _).mpr ⟨rest.data, rfl⟩
    have hdrop : ("Basic " ++ rest).data.drop 6 = rest.data := by
      rw [String.data_append]
      have h6 : ("Basic ".data).length = 6 := rfl
      rw [← h6]
      exact List.drop_left _ _
    simp [verifyAuth, hpre, hdrop, string_mk_data, h0, h1]

/-- Every authentication failure carries the fixed unauthorized error shape. -/
theorem verifyAuth_unauthorized_shape (decode : String → String) (secretKey : String)
    (authHeader : Option String) (e : PaymeError)
    (he : verifyAuth decode secretKey authHeader = some e) :
    e.message = "Unauthorized" ∧ e.code = -32504 := by
  match authHeader with
  | none =>
    simp [verifyAuth] at he
    rw [← he]
    exact ⟨rfl, rfl⟩
  | some h =>
    by_cases hpre : "Basic ".data.isPrefixOf h.data = true
    · by_cases hcond :
          (jsSplit ':' (decode (String.mk (h.data.drop 6))))[0]? = some "Paycom" ∧
          (jsSplit ':' (decode (String.mk (h.data.drop 6))))[1]? = some secretKey
      · simp [verifyAuth, hpre, hcond] at he
      · simp [verifyAuth, hpre, hcond] at he
        rw [← he]
        exact ⟨rfl, rfl⟩
    · simp [verifyAuth, hpre] at he
      rw [← he]
      exact ⟨rfl, rfl⟩

/-- Counterexample for C4: with configured secret "s", a header whose
credentials decode to "Paycom:s:x" authenticates (the business logic runs and
its result is returned), although the header is not of the form
`Basic base64("Paycom:" ++ secret)`. -/
theorem payme_auth_form_counterexample :
    (paymeHandle (fun _ => "Paycom:s:x") "s" intLogic 0
        ⟨some (.num 1), "CheckPerformTransaction", (0 : Int)⟩
        (some "Basic Zm9v")).result = some 7 ∧
    ¬ ∃ rest : String, (some "Basic Zm9v" : Option String) = some ("Basic " ++ rest) ∧
        (fun _ : String => "Paycom:s:x") rest = "Paycom" ++ ":" ++ "s" := by
  constructor
  · rfl
  · rintro ⟨rest, -, h2⟩
    have h2' : ("Paycom:s:x" : String) = "Paycom" ++ ":" ++ "s" := h2
    exact absurd h2' (by decide)

/-- C4 (amended): `PaymeWebhookHandler.handle` invokes the business logic
exactly when the Authorization header is `"Basic "` followed by a credential
part whose decoding, split on every `':'`, has first segment `"Paycom"` and
second segment equal to the configured secret; otherwise it returns the fixed
-32504 unauthorized envelope (whose shape does not depend on the business
logic, hence the logic is never invoked). -/
theorem payme_webhook_auth_gate {V : Type} (decode : String → String) (secretKey : String)
    (logic : PaymeWebhookLogic V) (now : Int) (body : PaymeWebhookBody V)
    (authHeader : Option String) :
    (verifyAuth decode secretKey authHeader = none ↔
      ∃ rest : String, authHeader = some ("Basic " ++ rest) ∧
        (jsSplit ':' (decode rest))[0]? = some "Paycom" ∧
        (jsSplit ':' (decode rest))[1]? = some secretKey) ∧
    (∀ e, verifyAuth decode secretKey authHeader = some e →
      e.code = -32504 ∧
      paymeHandle decode secretKey logic now body authHeader =
        ⟨some (catchId body.id now), none,
          some ⟨-32504, ⟨none, none, some "Unauthorized"⟩, e.data⟩⟩) := by
  refine ⟨verifyAuth_none_iff decode secretKey authHeader, ?_⟩
  intro e he
  have hshape := verifyAuth_unauthorized_shape decode secretKey authHeader e he
  refine ⟨hshape.2, ?_⟩
  simp [paymeHandle, he, hshape.1, hshape.2]

/-- Witness for C4 (amended): a missing header yields the fixed unauthorized
envelope. -/
theorem payme_webhook_auth_gate_witness :
    paymeHandle (fun _ => "nope") "k" intLogic 4
        ⟨some (.num 2), "CreateTransaction", (0 : Int)⟩ none =
      ⟨some (.num 2), none, some ⟨-32504, ⟨none, none, some "Unauthorized"⟩,
        some "Authorization header missing or invalid"⟩⟩ :=
  ((payme_webhook_auth_gate (fun _ => "nope") "k" intLogic 4
      ⟨some (.num 2), "CreateTransaction", (0 : Int)⟩ none).2
    ⟨"Unauthorized", -32504, some "Authorization header missing or invalid"⟩ rfl).2

/-- C10: the decoded credentials are split on every colon and only the
segment between the first and second colon is compared to the secret; split
segments never contain a colon, so when the configured secret contains one,
no header authenticates and `handle` always returns the unauthorized
envelope. -/
theorem payme_auth_secret_with_colon {V : Type} (decode : String → String)
    (secretKey : String) (logic : PaymeWebhookLogic V) (now : Int)
    (body : PaymeWebhookBody V) (authHeader : Option String)
    (hcolon : ':' ∈ secretKey.data) :
    (∀ s p : String, (jsSplit ':' s)[1]? = some p → ':' ∉ p.data) ∧
    verifyAuth decode secretKey authHeader ≠ none ∧
    (∃ e, verifyAuth decode secretKey authHeader = some e ∧
      paymeHandle decode secretKey logic now body authHeader =
        ⟨some (catchId body.id now), none,
          some ⟨-32504, ⟨none, none, some "Unauthorized"⟩, e.data⟩⟩) := by
  have hmech : ∀ s p : String, (jsSplit ':' s)[1]? = some p → ':' ∉ p.data := by
    intro s p hp
    exact jsSplit_no_sep ':' s p (List.getElem?_mem hp)
  have hne : verifyAuth decode secretKey authHeader ≠ none := by
    intro hnone
    rcases (verifyAuth_none_iff decode secretKey authHeader).mp hnone with ⟨rest, -, -, h1⟩
    exact hmech (decode rest) secretKey h1 hcolon
  refine ⟨hmech, hne, ?_⟩
  rcases hsome : verifyAuth decode secretKey authHeader with - | e
  · exact absurd hsome hne
  · have hshape := verifyAuth_unauthorized_shape decode secretKey authHeader e hsome
    refine ⟨e, rfl, ?_⟩
    simp [paymeHandle, hsome, hshape.1, hshape.2]

/-- Witness for C10: with secret "a:b" even credentials decoding to
"Paycom:a:b" fail to authenticate. -/
theorem payme_auth_secret_with_colon_witness :
    verifyAuth (fun _ => "Paycom:a:b") "a:b" (some "Basic eA==") ≠ none :=
  (payme_auth_secret_with_colon (fun _ => "Paycom:a:b") "a:b" intLogic 0
      ⟨some (.num 3), "CreateTransaction", (0 : Int)⟩ (some "Basic eA==")
      (by decide)).2.1

/-- C5: under successful authentication, each of the six known methods is
delegated to the matching business-logic method; a `{result}` outcome is
wrapped as `{id, result}` with the echoed request id, a returned `{error}` as
`{id, error}`, and any thrown exception — typed or not — is converted into a
well-formed JSON-RPC error envelope (so no exception escapes `handle`); an
unknown method always yields the fixed -32601 "Method not found" error. -/
theorem payme_dispatch_envelopes {V : Type} (decode : String → String) (secretKey : String)
    (logic : PaymeWebhookLogic V) (now : Int) (body : PaymeWebhookBody V)
    (authHeader : Option String)
    (hauth : verifyAuth decode secretKey authHeader = none) :
    (∀ r, dispatchMethod logic body = .ok r →
      paymeHandle decode secretKey logic now body authHeader = ⟨body.id, some r, none⟩) ∧
    (∀ e, dispatchMethod logic body = .err e →
      paymeHandle decode secretKey logic now body authHeader = ⟨body.id, none, some e⟩) ∧
    (∀ e, dispatchMethod logic body = .thrownPayme e →
      paymeHandle decode secretKey logic now body authHeader =
        ⟨some (catchId body.id now), none,
          some ⟨e.code, ⟨none, none, some e.message⟩, e.data⟩⟩) ∧
    (∀ m, dispatchMethod logic body = .thrownOther m →
      paymeHandle decode secretKey logic now body authHeader =
        ⟨some (catchId body.id now), none,
          some ⟨-32400, ⟨none, none, some "Internal Server Error"⟩, some m⟩⟩) ∧
    (body.method = "CheckPerformTransaction" →
      dispatchMethod logic body = logic.checkPerformTransaction body.params body.id) ∧
    (body.method = "CreateTransaction" →
      dispatchMethod logic body = logic.createTransaction body.params body.id) ∧
    (body.method = "PerformTransaction" →
      dispatchMethod logic body = logic.performTransaction body.params body.id) ∧
    (body.method = "CancelTransaction" →
      dispatchMethod logic body = logic.cancelTransaction body.params body.id) ∧
    (body.method = "CheckTransaction" →
      dispatchMethod logic body = logic.checkTransaction body.params body.id) ∧
    (body.method = "GetStatement" →
      dispatchMethod logic body = logic.getStatement body.params body.id) ∧
    (body.method ∉ (["CheckPerformTransaction", "CreateTransaction", "PerformTransaction",
        "CancelTransaction", "CheckTransaction", "GetStatement"] : List String) →
      paymeHandle decode secretKey logic now body authHeader =
        ⟨some (catchId body.id now), none,
          some ⟨-32601, ⟨none, none, some "Method not found"⟩, none⟩⟩) := by
  refine ⟨?_, ?_, ?_, ?_, ?_, ?_, ?_, ?_, ?_, ?_, ?_⟩
  · intro r h
    simp [paymeHandle, hauth, h]
  · intro e h
    simp [paymeHandle, hauth, h]
  · intro e h
    simp [paymeHandle, hauth, h]
  · intro m h
    simp [paymeHandle, hauth, h]
  · intro hm
    simp [dispatchMethod, hm]
  · intro hm
    simp [dispatchMethod, hm]
  · intro hm
    simp [dispatchMethod, hm]
  · intro hm
    simp [dispatchMethod, hm]
  · intro hm
    simp [dispatchMethod, hm]
  · intro hm
    simp [dispatchMethod, hm]
  · intro hm
    simp only [List.mem_cons, List.not_mem_nil, or_false] at hm
    push_neg at hm
    obtain ⟨h1, h2, h3, h4, h5, h6⟩ := hm
    have hd : dispatchMethod logic body = .thrownPayme ⟨"Method not found", -32601, none⟩ := by
      simp [dispatchMethod, h1, h2, h3, h4, h5, h6]
    simp [paymeHandle, hauth, hd]

/-- Witness for C5: a concrete authenticated request to a known method echoes
the request id and wraps the business-logic result. -/
theorem payme_dispatch_envelopes_witness :
    paymeHandle (fun _ => "Paycom:k") "k" intLogic 9
        ⟨some (.str "id1"), "CheckPerformTransaction", (0 : Int)⟩ (some "Basic z") =
      ⟨some (.str "id1"), some 7, none⟩ :=
  (payme_dispatch_envelopes (fun _ => "Paycom:k") "k" intLogic 9
      ⟨some (.str "id1"), "CheckPerformTransaction", (0 : Int)⟩ (some "Basic z") rfl).1 7 rfl

/-- Counterexample for C6: with action complete (1) and a present but empty
`merchant_prepare_id`, the code excludes the field from the hashed string
while the claim's field list (inclusion whenever present) includes it, so the
two verdicts differ at this input. -/
theorem click_signature_inclusion_counterexample :
    verifyWebhookSignature (fun s => s)
        ⟨"t", "sv", "m", some "", "amt", 1, "tm", "t|sv|sec|m||amt|1|tm"⟩ "sec" ≠
      ((fun s : String => s)
          (String.intercalate "|" (claimSignFieldsPresent
            ⟨"t", "sv", "m", some "", "amt", 1, "tm", "t|sv|sec|m||amt|1|tm"⟩ "sec")) ==
        "t|sv|sec|m||amt|1|tm") := by
  decide

/-- C6 (amended): signature verification hashes the pipe-joined ordered field
list `[transId, serviceId, secret, merchantTransId, merchantPrepareId
(included only when action is complete (1) and the field is present and
non-empty), amount, action, signTime]` and compares the digest to
`sign_string` by exact string equality; any mismatch makes
`verifySignature` raise the typed `ClickError` with the fixed code -1. -/
theorem click_signature_fields (md5hex : String → String)
    (body : ClickWebhookBody) (secretKey : String) :
    verifyWebhookSignature md5hex body secretKey =
      (md5hex (String.intercalate "|" (amendedSignFieldsTruthy body secretKey)) ==
        body.sign_string) ∧
    (verifyWebhookSignature md5hex body secretKey = false →
      clickVerifySignature md5hex secretKey body =
        .error ⟨"Invalid webhook signature.", -1⟩) := by
  refine ⟨rfl, ?_⟩
  intro hfail
  simp [clickVerifySignature, hfail]

/-- Witness for C6 (amended): a concrete mismatching signature raises the
typed error with code -1. -/
theorem click_signature_fields_witness :
    clickVerifySignature (fun s => s) "sec"
        ⟨"t", "sv", "m", none, "amt", 0, "tm", "bad"⟩ =
      .error ⟨"Invalid webhook signature.", -1⟩ :=
  (click_signature_fields (fun s => s)
      ⟨"t", "sv", "m", none, "amt", 0, "tm", "bad"⟩ "sec").2 (by decide)

end PaymentsUz
